import Mathlib

/-!
# AudioDecoderMp3 (cocos/audio/AudioDecoderMp3.cpp)

A shallow embedding of the MP3 decoder session: the process-wide
initialisation flag, the session object and its operations
`lazyInit`, `destroy`, `open`, `close`, `read`, `seek`, `tell`.

The mpg123 library and the file stream are external; every answer they
give is an explicit argument of the operation that asks for it (an oracle
record), and every call made into them is listed in the `calls` of the
operation's result.  The set of library handles that are allocated and not
yet deleted is explicit state (`Process.live`).

Machine integers are `Nat`/`Int` with the conversions of the source written
out: `uint32_t` is reduction modulo `2^32`, `int` is the two's complement
reading of 32 bits, `size_t` is reduction modulo `2^64`.
-/

namespace cocos2d

/-! ## Constants of mpg123.h -/

/-- Return code of a library call that succeeded. -/
def MPG123_OK : Int := 0

/-- Generic error return code of the library. -/
def MPG123_ERR : Int := -1

/-- Encoding value of signed 16-bit samples. -/
def MPG123_ENC_SIGNED_16 : Int := 0xD0

/-- Encoding value of 32-bit floating-point samples. -/
def MPG123_ENC_FLOAT_32 : Int := 0x200

/-- The `whence` value of an absolute seek. -/
def SEEK_SET : Int := 0

/-! ## Integer conversions -/

/-- Conversion of an integer value to `uint32_t`. -/
def toUInt32 (x : Int) : Nat := (x % 4294967296).toNat

/-- Conversion of a `uint32_t` value to `int` (two's complement, 32 bits). -/
def toInt32 (n : Nat) : Int :=
  if n % 4294967296 < 2147483648 then ((n % 4294967296 : Nat) : Int)
  else ((n % 4294967296 : Nat) : Int) - 4294967296

/-- Conversion of an integer value to `size_t`, taken 64 bits wide as on the
64-bit targets of the engine. -/
def toSizeT (x : Int) : Nat := (x % 18446744073709551616).toNat

/-- Multiplication of two `uint32_t` values. -/
def mulUInt32 (a b : Nat) : Nat := (a * b) % 4294967296

/-! ## Data model -/

/-- Modelled from the spec: the enum `AUDIO_SOURCE_FORMAT` is declared in
audio/include/AudioMacros.h, which is not among the sources; the two formats
this decoder stores are the ones the spec lists for it. -/
inductive AUDIO_SOURCE_FORMAT where
  | PCM_16
  | PCM_FLT32
  deriving DecidableEq

/-- A call made into the mpg123 library or into the file stream.  A handle
is a natural number, `0` being `nullptr`. -/
inductive Call where
  | mpg123_init (rc : Int)
  | mpg123_exit
  | mpg123_new
  | fileStream_open (fullPath : String)
  | mpg123_replace_reader_handle (h : Nat)
  | mpg123_open_handle (h : Nat)
  | mpg123_getformat (h : Nat)
  | mpg123_format_none (h : Nat)
  | mpg123_format (h : Nat) (rate channel encoding : Int)
  | mpg123_scan (h : Nat)
  | mpg123_length (h : Nat)
  | mpg123_close (h : Nat)
  | mpg123_delete (h : Nat)
  | mpg123_read (h : Nat) (size : Nat)
  | mpg123_seek (h : Nat) (offset whence : Int)
  | mpg123_tell (h : Nat)
  deriving DecidableEq

/-- Process-wide state: the static flag `__mp3Inited`, the handles the
library has allocated and not yet deleted, and the number of handles
allocated so far (the next handle is `fresh + 1`, never `0`). -/
structure Process where
  mp3Inited : Bool
  live : List Nat
  fresh : Nat
  deriving DecidableEq

/-- Modelled from the spec: the class declaration (AudioDecoderMp3.h and the
base class in AudioDecoder.h) is not among the sources.  The fields are the
ones `open` and `close` assign, which the spec's data model lists; the
integer ones are unsigned and 32 bits wide (the spec has the product
`framesToRead * bytesPerFrame` of `read` computed in 32-bit arithmetic, and
all frame counts unsigned).  `mpg123handle = 0` is `nullptr`. -/
structure AudioDecoderMp3 where
  mpg123handle : Nat
  isOpened : Bool
  sourceFormat : AUDIO_SOURCE_FORMAT
  totalFrames : Nat
  bytesPerFrame : Nat
  sampleRate : Nat
  channelCount : Nat
  deriving DecidableEq

/-- What an operation leaves behind: its return value, the session, the
process-wide state, and the calls it made, in order. -/
structure Outcome (α : Type) where
  ret : α
  session : AudioDecoderMp3
  proc : Process
  calls : List Call

/-- The answers of the library and of the file stream during one `open`. -/
structure OpenOracle where
  newOk : Bool
  fileOk : Bool
  openRc : Int
  formatRc : Int
  rate : Int
  channel : Int
  encoding : Int
  length : Int
  deriving DecidableEq

/-- The answer of `mpg123_read`: its return code and the byte count it
stores in `bytesRead`. -/
structure ReadOracle where
  err : Int
  bytesRead : Nat
  deriving DecidableEq

/-! ## Process-wide library lifecycle -/

/-- The static function `AudioDecoderMp3::lazyInit`; `rc` is what `mpg123_init` returns if it is
called.  The result is the return value, the new flag and the calls made. -/
def lazyInit (p : Process) (rc : Int) : Bool × Process × List Call :=
  if !p.mp3Inited then
    if rc = MPG123_OK then
      (true, { p with mp3Inited := true }, [Call.mpg123_init rc])
    else
      (false, p, [Call.mpg123_init rc])
  else
    (true, p, [])

/-- The static function `AudioDecoderMp3::destroy`. -/
def destroy (p : Process) : Process × List Call :=
  if p.mp3Inited then
    ({ p with mp3Inited := false }, [Call.mpg123_exit])
  else
    (p, [])

/-- Modelled from the spec: the constructor of the base class `AudioDecoder`
(audio/include/AudioDecoder.h and its source are not among the sources)
creates the session not opened, with zeroed format fields. -/
def baseSession : AudioDecoderMp3 :=
  { mpg123handle := 0, isOpened := false, sourceFormat := AUDIO_SOURCE_FORMAT.PCM_16,
    totalFrames := 0, bytesPerFrame := 0, sampleRate := 0, channelCount := 0 }

/-- The constructor `AudioDecoderMp3::AudioDecoderMp3`: the handle is `nullptr`, `lazyInit`
is called and its result is dropped. -/
def construct (p : Process) (rc : Int) : Outcome Unit :=
  let r := lazyInit p rc
  { ret := (), session := { baseSession with mpg123handle := 0 }, proc := r.2.1, calls := r.2.2 }

/-! ## Session operations -/

/-- The part of `open` after the `do ... while (false)` block: the handle,
when there is one, is closed and deleted, and `open` returns false. -/
def openFail (s : AudioDecoderMp3) (p : Process) (calls : List Call) : Outcome Bool :=
  if s.mpg123handle ≠ 0 then
    { ret := false
      session := { s with mpg123handle := 0 }
      proc := { p with live := p.live.erase s.mpg123handle }
      calls := calls ++ [Call.mpg123_close s.mpg123handle, Call.mpg123_delete s.mpg123handle] }
  else
    { ret := false, session := s, proc := p, calls := calls }

/-- The end of the successful path of `open`: the format is fixed, the
stream is scanned, the length is stored and the session is marked opened. -/
def openFinish (s : AudioDecoderMp3) (p : Process) (calls : List Call) (o : OpenOracle) :
    Outcome Bool :=
  { ret := true
    session := { s with totalFrames := toUInt32 o.length, isOpened := true }
    proc := p
    calls := calls ++ [Call.mpg123_format_none s.mpg123handle,
      Call.mpg123_format s.mpg123handle o.rate o.channel o.encoding,
      Call.mpg123_scan s.mpg123handle, Call.mpg123_length s.mpg123handle] }

/-- The method `AudioDecoderMp3::open`; `o` holds the answers of the library
and of the file stream. -/
def AudioDecoderMp3.open (s : AudioDecoderMp3) (p : Process) (fullPath : String)
    (o : OpenOracle) : Outcome Bool :=
  -- _mpg123handle = mpg123_new(nullptr, &error);
  let h : Nat := if o.newOk then p.fresh + 1 else 0
  let p1 : Process :=
    if o.newOk then { p with live := p.live ++ [p.fresh + 1], fresh := p.fresh + 1 } else p
  let s1 : AudioDecoderMp3 := { s with mpg123handle := h }
  let c1 : List Call := [Call.mpg123_new]
  if h = 0 then openFail s1 p1 c1
  else
    let c2 := c1 ++ [Call.fileStream_open fullPath]
    if !o.fileOk then openFail s1 p1 c2
    else
      let c3 := c2 ++ [Call.mpg123_replace_reader_handle h, Call.mpg123_open_handle h]
      if o.openRc ≠ MPG123_OK then openFail s1 p1 c3
      else
        let c4 := c3 ++ [Call.mpg123_getformat h]
        if o.formatRc ≠ MPG123_OK then openFail s1 p1 c4
        else
          let s2 : AudioDecoderMp3 :=
            { s1 with channelCount := toUInt32 o.channel, sampleRate := toUInt32 o.rate }
          if o.encoding = MPG123_ENC_SIGNED_16 then
            openFinish { s2 with bytesPerFrame := mulUInt32 2 s2.channelCount,
                                 sourceFormat := AUDIO_SOURCE_FORMAT.PCM_16 } p1 c4 o
          else if o.encoding = MPG123_ENC_FLOAT_32 then
            openFinish { s2 with bytesPerFrame := mulUInt32 4 s2.channelCount,
                                 sourceFormat := AUDIO_SOURCE_FORMAT.PCM_FLT32 } p1 c4 o
          else openFail s2 p1 c4

/-- The method `AudioDecoderMp3::close`.  The test `isOpened()` is the base
class's accessor of `_isOpened`, read here as the field itself. -/
def AudioDecoderMp3.close (s : AudioDecoderMp3) (p : Process) : Outcome Unit :=
  if s.isOpened then
    if s.mpg123handle ≠ 0 then
      { ret := ()
        session := { s with mpg123handle := 0, isOpened := false }
        proc := { p with live := p.live.erase s.mpg123handle }
        calls := [Call.mpg123_close s.mpg123handle, Call.mpg123_delete s.mpg123handle] }
    else
      { ret := (), session := { s with isOpened := false }, proc := p, calls := [] }
  else
    { ret := (), session := s, proc := p, calls := [] }

/-- The local `int bytesToRead = framesToRead * _bytesPerFrame` of `read`:
the product of two `uint32_t`, converted to `int`. -/
def bytesToRead (s : AudioDecoderMp3) (framesToRead : Nat) : Int :=
  toInt32 (mulUInt32 framesToRead s.bytesPerFrame)

/-- The size `read` passes to `mpg123_read`: `bytesToRead` converted to
`size_t`. -/
def requestedSize (s : AudioDecoderMp3) (framesToRead : Nat) : Nat :=
  toSizeT (bytesToRead s framesToRead)

/-- The method `AudioDecoderMp3::read`.  The return value is `none` where the source
divides by a zero `_bytesPerFrame`. -/
def AudioDecoderMp3.read (s : AudioDecoderMp3) (p : Process) (framesToRead : Nat)
    (o : ReadOracle) : Outcome (Option Nat) :=
  let calls := [Call.mpg123_read s.mpg123handle (requestedSize s framesToRead)]
  if o.err = MPG123_ERR then
    { ret := some 0, session := s, proc := p, calls := calls }
  else if s.bytesPerFrame = 0 then
    { ret := none, session := s, proc := p, calls := calls }
  else
    { ret := some ((o.bytesRead / s.bytesPerFrame) % 4294967296)
      session := s, proc := p, calls := calls }

/-- Conversion of a `uint32_t` value to `off_t`, a signed type of `offBits`
bits. -/
def toOffT (offBits : Nat) (n : Nat) : Int :=
  if n % 2 ^ offBits < 2 ^ (offBits - 1) then ((n % 2 ^ offBits : Nat) : Int)
  else ((n % 2 ^ offBits : Nat) : Int) - 2 ^ offBits

/-- The comparison `offset == frameOffset` of an `off_t` with a `uint32_t`
under the usual arithmetic conversions: an `off_t` wider than 32 bits holds
every `uint32_t`, so the right operand is converted to it; otherwise both
operands are converted to the unsigned 32-bit type. -/
def offEq (offBits : Nat) (offset : Int) (frameOffset : Nat) : Bool :=
  if 32 < offBits then decide (offset = (frameOffset : Int))
  else decide (toUInt32 offset = frameOffset)

/-- The method `AudioDecoderMp3::seek`; `offset` is what `mpg123_seek` returns and
`offBits` is the width of `off_t`. -/
def AudioDecoderMp3.seek (s : AudioDecoderMp3) (p : Process) (offBits : Nat)
    (frameOffset : Nat) (offset : Int) : Outcome Bool :=
  let calls := [Call.mpg123_seek s.mpg123handle (toOffT offBits frameOffset) SEEK_SET]
  if decide (offset ≥ 0) && offEq offBits offset frameOffset then
    { ret := true, session := s, proc := p, calls := calls }
  else
    { ret := false, session := s, proc := p, calls := calls }

/-- The method `AudioDecoderMp3::tell`; `pos` is what `mpg123_tell` returns. -/
def AudioDecoderMp3.tell (s : AudioDecoderMp3) (p : Process) (pos : Int) : Outcome Nat :=
  { ret := toUInt32 pos, session := s, proc := p, calls := [Call.mpg123_tell s.mpg123handle] }

/-! ## Call sequences -/

/-- A call of one of the two static functions of the library lifecycle;
`rc` is what `mpg123_init` returns if `lazyInit` calls it. -/
inductive ProcOp where
  | callLazyInit (rc : Int)
  | callDestroy
  deriving DecidableEq

/-- One lifecycle call: the new process state and the library calls made. -/
def stepProc (p : Process) : ProcOp → Process × List Call
  | ProcOp.callLazyInit rc => (lazyInit p rc).2
  | ProcOp.callDestroy => destroy p

/-- A sequence of lifecycle calls: the final process state and all library
calls made, in order. -/
def runProc (p : Process) : List ProcOp → Process × List Call
  | [] => (p, [])
  | op :: ops => ((runProc (stepProc p op).1 ops).1, (stepProc p op).2 ++ (runProc (stepProc p op).1 ops).2)

/-- Strict alternation, in a list of library calls, of successful
`mpg123_init` and `mpg123_exit`; `inited` tells whether the library is
initialized before the first call of the list (so with `false` the first of
them has to be an initialization).  Other calls, failed initializations
among them, are passed over. -/
def alternates : Bool → List Call → Bool
  | _, [] => true
  | inited, Call.mpg123_init rc :: cs =>
      if rc = MPG123_OK then !inited && alternates true cs else alternates inited cs
  | inited, Call.mpg123_exit :: cs => inited && alternates false cs
  | inited, _ :: cs => alternates inited cs

/-- A call of one of the session's methods, with the answers the library
gives during it. -/
inductive Op where
  | callOpen (fullPath : String) (o : OpenOracle)
  | callRead (framesToRead : Nat) (o : ReadOracle)
  | callSeek (offBits frameOffset : Nat) (offset : Int)
  | callTell (pos : Int)
  | callClose
  deriving DecidableEq

/-- One method call on the session. -/
def step (s : AudioDecoderMp3) (p : Process) : Op → AudioDecoderMp3 × Process
  | Op.callOpen fullPath o => ((s.open p fullPath o).session, (s.open p fullPath o).proc)
  | Op.callRead framesToRead o =>
      ((s.read p framesToRead o).session, (s.read p framesToRead o).proc)
  | Op.callSeek offBits frameOffset offset =>
      ((s.seek p offBits frameOffset offset).session, (s.seek p offBits frameOffset offset).proc)
  | Op.callTell pos => ((s.tell p pos).session, (s.tell p pos).proc)
  | Op.callClose => ((s.close p).session, (s.close p).proc)

/-- A sequence of method calls on the session. -/
def run (s : AudioDecoderMp3) (p : Process) : List Op → AudioDecoderMp3 × Process
  | [] => (s, p)
  | op :: ops => run (step s p op).1 (step s p op).2 ops

/-- The calling discipline under which `open` is only ever called on a
session that is not opened at that moment. -/
def openOnlyWhenClosed (s : AudioDecoderMp3) (p : Process) : List Op → Bool
  | [] => true
  | Op.callOpen fullPath o :: ops =>
      !s.isOpened && openOnlyWhenClosed (step s p (Op.callOpen fullPath o)).1
        (step s p (Op.callOpen fullPath o)).2 ops
  | op :: ops => openOnlyWhenClosed (step s p op).1 (step s p op).2 ops

/-! ## Concrete inputs -/

/-- A process in which nothing has been initialized or allocated. -/
def freshProcess : Process := { mp3Inited := false, live := [], fresh := 0 }

/-- The answers of the library for the stream of the spec's scenario:
44100 Hz, stereo, signed 16-bit, with 1000 frames. -/
def trackOracle : OpenOracle :=
  { newOk := true, fileOk := true, openRc := MPG123_OK, formatRc := MPG123_OK,
    rate := 44100, channel := 2, encoding := MPG123_ENC_SIGNED_16, length := 1000 }

/-- The session and process after `open` succeeded on the scenario's stream,
starting from a newly constructed session. -/
def trackOpened : Outcome Bool :=
  (construct freshProcess MPG123_OK).session.open (construct freshProcess MPG123_OK).proc
    "track.mp3" trackOracle

/-- The ownership invariant of a session that is alone in its process: the
live handles are the session's handle, when it has one, and nothing else,
and a session that has a handle is marked opened. -/
def ownsLive (s : AudioDecoderMp3) (p : Process) : Prop :=
  p.live = (if s.mpg123handle = 0 then [] else [s.mpg123handle]) ∧
  (s.mpg123handle ≠ 0 → s.isOpened = true)

/-- A sequence that opens the scenario's stream twice without closing in
between, then closes. -/
def reopenOps : List Op :=
  [Op.callOpen "track.mp3" trackOracle, Op.callOpen "track.mp3" trackOracle, Op.callClose]

/-- A sequence that keeps to the discipline: open, read, seek, tell, close,
a failing open, and an open again. -/
def disciplinedOps : List Op :=
  [Op.callOpen "track.mp3" trackOracle,
   Op.callRead 1024 { err := MPG123_OK, bytesRead := 4096 },
   Op.callSeek 64 0 0, Op.callTell 0, Op.callClose,
   Op.callOpen "missing.mp3" { trackOracle with fileOk := false },
   Op.callOpen "track.mp3" trackOracle]

/-! ## Lemmas on `open` -/

theorem openFail_ret (s : AudioDecoderMp3) (p : Process) (calls : List Call) :
    (openFail s p calls).ret = false := by
  unfold openFail
  split <;> rfl

theorem openFail_handle (s : AudioDecoderMp3) (p : Process) (calls : List Call) :
    (openFail s p calls).session.mpg123handle = 0 := by
  unfold openFail
  split
  · rfl
  · rename_i h
    simpa using h

theorem openFail_isOpened (s : AudioDecoderMp3) (p : Process) (calls : List Call) :
    (openFail s p calls).session.isOpened = s.isOpened := by
  unfold openFail
  split <;> rfl

/-- The return value of `open` in terms of the answers of the library. -/
theorem open_ret_iff (s : AudioDecoderMp3) (p : Process) (fullPath : String) (o : OpenOracle) :
    (s.open p fullPath o).ret = true ↔
      (o.newOk = true ∧ o.fileOk = true ∧ o.openRc = MPG123_OK ∧ o.formatRc = MPG123_OK ∧
        (o.encoding = MPG123_ENC_SIGNED_16 ∨ o.encoding = MPG123_ENC_FLOAT_32)) := by
  unfold AudioDecoderMp3.open
  dsimp only
  split_ifs <;> simp_all [openFail_ret, openFinish]

theorem toUInt32_cast (x : Int) : ((toUInt32 x : Nat) : Int) = x % 4294967296 := by
  unfold toUInt32
  exact Int.toNat_of_nonneg (Int.emod_nonneg x (by norm_num))

/-- The session that a successful `open` leaves. -/
theorem open_session_of_ret (s : AudioDecoderMp3) (p : Process) (fullPath : String)
    (o : OpenOracle) (hret : (s.open p fullPath o).ret = true) :
    (s.open p fullPath o).session.isOpened = true ∧
    (s.open p fullPath o).session.sampleRate = toUInt32 o.rate ∧
    (s.open p fullPath o).session.channelCount = toUInt32 o.channel ∧
    (s.open p fullPath o).session.totalFrames = toUInt32 o.length ∧
    (o.encoding = MPG123_ENC_SIGNED_16 →
      (s.open p fullPath o).session.sourceFormat = AUDIO_SOURCE_FORMAT.PCM_16 ∧
      (s.open p fullPath o).session.bytesPerFrame = mulUInt32 2 (toUInt32 o.channel)) ∧
    (o.encoding = MPG123_ENC_FLOAT_32 →
      (s.open p fullPath o).session.sourceFormat = AUDIO_SOURCE_FORMAT.PCM_FLT32 ∧
      (s.open p fullPath o).session.bytesPerFrame = mulUInt32 4 (toUInt32 o.channel)) := by
  obtain ⟨hn, hf, ho, hg, he⟩ := (open_ret_iff s p fullPath o).1 hret
  have hne : MPG123_ENC_FLOAT_32 ≠ MPG123_ENC_SIGNED_16 := by decide
  rcases he with he | he
  · unfold AudioDecoderMp3.open
    simp [hn, hf, ho, hg, he, openFinish, hne.symm]
  · unfold AudioDecoderMp3.open
    simp [hn, hf, ho, hg, he, openFinish, hne]

/-- Below 2^31 the product of `read` goes through its conversions
unchanged. -/
theorem requestedSize_of_lt (s : AudioDecoderMp3) (framesToRead : Nat)
    (hprod : framesToRead * s.bytesPerFrame < 2147483648) :
    requestedSize s framesToRead = framesToRead * s.bytesPerFrame := by
  unfold requestedSize bytesToRead toSizeT toInt32 mulUInt32
  have h1 : framesToRead * s.bytesPerFrame % 4294967296 = framesToRead * s.bytesPerFrame :=
    Nat.mod_eq_of_lt (by omega)
  rw [h1, h1, if_pos hprod]
  omega

/-- From any process state, the calls of a lifecycle sequence alternate,
starting from what the flag says. -/
theorem runProc_alternates (p : Process) (ops : List ProcOp) :
    alternates p.mp3Inited (runProc p ops).2 = true := by
  induction ops generalizing p with
  | nil => simp [runProc, alternates]
  | cons op ops ih =>
    cases op with
    | callLazyInit rc =>
      by_cases hf : p.mp3Inited = true
      · have hs : stepProc p (ProcOp.callLazyInit rc) = (p, []) := by
          simp [stepProc, lazyInit, hf]
        simp only [runProc, hs, List.nil_append]
        exact ih p
      · have hf' : p.mp3Inited = false := by simpa using hf
        by_cases hrc : rc = MPG123_OK
        · subst hrc
          have hs : stepProc p (ProcOp.callLazyInit MPG123_OK)
              = ({ p with mp3Inited := true }, [Call.mpg123_init MPG123_OK]) := by
            simp [stepProc, lazyInit, hf']
          simp only [runProc, hs, List.singleton_append, alternates, hf', if_true]
          simpa using ih { p with mp3Inited := true }
        · have hs : stepProc p (ProcOp.callLazyInit rc) = (p, [Call.mpg123_init rc]) := by
            simp [stepProc, lazyInit, hf', hrc]
          simp only [runProc, hs, List.singleton_append, alternates, hrc, if_false]
          exact ih p
    | callDestroy =>
      by_cases hf : p.mp3Inited = true
      · have hs : stepProc p ProcOp.callDestroy
            = ({ p with mp3Inited := false }, [Call.mpg123_exit]) := by
          simp [stepProc, destroy, hf]
        simp only [runProc, hs, List.singleton_append, alternates, hf, Bool.true_and]
        simpa using ih { p with mp3Inited := false }
      · have hs : stepProc p ProcOp.callDestroy = (p, []) := by
          simp [stepProc, destroy, hf]
        simp only [runProc, hs, List.nil_append]
        exact ih p

/-! ## Lemmas on handle ownership -/

theorem ownsLive_length (s : AudioDecoderMp3) (p : Process) (h : ownsLive s p) :
    p.live.length ≤ 1 := by
  rw [h.1]
  split <;> simp

theorem construct_ownsLive (inited : Bool) (fresh : Nat) (rc : Int) :
    ownsLive (construct { mp3Inited := inited, live := [], fresh := fresh } rc).session
      (construct { mp3Inited := inited, live := [], fresh := fresh } rc).proc := by
  have hl : (lazyInit { mp3Inited := inited, live := [], fresh := fresh } rc).2.1.live = [] := by
    unfold lazyInit
    split_ifs <;> rfl
  constructor
  · simp [construct, hl]
  · intro h
    exact absurd rfl h

theorem openFail_ownsLive (s : AudioDecoderMp3) (p : Process) (calls : List Call)
    (hlive : p.live = (if s.mpg123handle = 0 then [] else [s.mpg123handle])) :
    ownsLive (openFail s p calls).session (openFail s p calls).proc := by
  by_cases hh : s.mpg123handle = 0
  · have hf : openFail s p calls = { ret := false, session := s, proc := p, calls := calls } := by
      simp [openFail, hh]
    rw [hf]
    exact ⟨hlive, fun hne => absurd hh hne⟩
  · have hf : openFail s p calls =
        { ret := false
          session := { s with mpg123handle := 0 }
          proc := { p with live := p.live.erase s.mpg123handle }
          calls := calls ++ [Call.mpg123_close s.mpg123handle,
            Call.mpg123_delete s.mpg123handle] } := by
      simp [openFail, hh]
    rw [hf]
    constructor
    · simp [hlive, hh]
    · intro hne
      exact absurd rfl hne

theorem openFinish_ownsLive (s : AudioDecoderMp3) (p : Process) (calls : List Call)
    (o : OpenOracle) (hh : s.mpg123handle ≠ 0) (hlive : p.live = [s.mpg123handle]) :
    ownsLive (openFinish s p calls o).session (openFinish s p calls o).proc := by
  constructor
  · simp [openFinish, hlive, hh]
  · intro _
    rfl

/-- An `open` on a session that is not opened keeps the invariant. -/
theorem open_ownsLive (s : AudioDecoderMp3) (p : Process) (fullPath : String) (o : OpenOracle)
    (hinv : ownsLive s p) (hclosed : s.isOpened = false) :
    ownsLive (s.open p fullPath o).session (s.open p fullPath o).proc := by
  have hh : s.mpg123handle = 0 := by
    by_contra hne
    have := hinv.2 hne
    rw [hclosed] at this
    exact absurd this (by decide)
  have hlive : p.live = [] := by
    rw [hinv.1, if_pos hh]
  unfold AudioDecoderMp3.open
  by_cases hn : o.newOk = true
  · simp only [hn, if_true]
    split_ifs
    all_goals first
      | (apply openFail_ownsLive; simp [hlive])
      | (apply openFinish_ownsLive <;> simp [hlive])
  · have hn' : o.newOk = false := by simpa using hn
    simp only [hn', Bool.false_eq_true, if_false, if_true]
    apply openFail_ownsLive
    simp [hlive]

theorem close_ownsLive (s : AudioDecoderMp3) (p : Process) (hinv : ownsLive s p) :
    ownsLive (s.close p).session (s.close p).proc := by
  obtain ⟨h1, h2⟩ := hinv
  by_cases ho : s.isOpened = true
  · by_cases hh : s.mpg123handle = 0
    · have hc : s.close p
          = { ret := (), session := { s with isOpened := false }, proc := p, calls := [] } := by
        simp [AudioDecoderMp3.close, ho, hh]
      rw [hc]
      exact ⟨h1, fun hne => absurd hh hne⟩
    · have hc : s.close p =
          { ret := ()
            session := { s with mpg123handle := 0, isOpened := false }
            proc := { p with live := p.live.erase s.mpg123handle }
            calls := [Call.mpg123_close s.mpg123handle, Call.mpg123_delete s.mpg123handle] } := by
        simp [AudioDecoderMp3.close, ho, hh]
      rw [hc]
      constructor
      · simp [h1, hh]
      · intro hne
        exact absurd rfl hne
  · have hc : s.close p = { ret := (), session := s, proc := p, calls := [] } := by
      simp [AudioDecoderMp3.close, ho]
    rw [hc]
    exact ⟨h1, h2⟩

theorem close_live_of_ownsLive (s : AudioDecoderMp3) (p : Process) (hinv : ownsLive s p) :
    (s.close p).proc.live = [] := by
  have h := close_ownsLive s p hinv
  have hclosed : (s.close p).session.isOpened = false := by
    unfold AudioDecoderMp3.close
    split_ifs with h1 h2
    · rfl
    · rfl
    · simpa using h1
  have hh : (s.close p).session.mpg123handle = 0 := by
    by_contra hne
    have := h.2 hne
    rw [hclosed] at this
    exact absurd this (by decide)
  rw [h.1, if_pos hh]

theorem read_unchanged (s : AudioDecoderMp3) (p : Process) (framesToRead : Nat) (o : ReadOracle) :
    (s.read p framesToRead o).session = s ∧ (s.read p framesToRead o).proc = p := by
  unfold AudioDecoderMp3.read
  dsimp only
  split_ifs <;> exact ⟨rfl, rfl⟩

theorem seek_unchanged (s : AudioDecoderMp3) (p : Process) (offBits frameOffset : Nat)
    (offset : Int) :
    (s.seek p offBits frameOffset offset).session = s ∧
    (s.seek p offBits frameOffset offset).proc = p := by
  unfold AudioDecoderMp3.seek
  dsimp only
  by_cases h : (decide (offset ≥ 0) && offEq offBits offset frameOffset) = true
  · rw [if_pos h]
    exact ⟨rfl, rfl⟩
  · rw [if_neg h]
    exact ⟨rfl, rfl⟩

/-- Every call keeps the invariant, an `open` provided the session is not
opened when it is called. -/
theorem step_ownsLive (s : AudioDecoderMp3) (p : Process) (op : Op) (hinv : ownsLive s p)
    (hdisc : openOnlyWhenClosed s p [op] = true) :
    ownsLive (step s p op).1 (step s p op).2 := by
  cases op with
  | callOpen fullPath o =>
    have hclosed : s.isOpened = false := by
      simpa [openOnlyWhenClosed] using hdisc
    exact open_ownsLive s p fullPath o hinv hclosed
  | callRead framesToRead o =>
    simp only [step, (read_unchanged s p framesToRead o).1, (read_unchanged s p framesToRead o).2]
    exact hinv
  | callSeek offBits frameOffset offset =>
    simp only [step, (seek_unchanged s p offBits frameOffset offset).1,
      (seek_unchanged s p offBits frameOffset offset).2]
    exact hinv
  | callTell pos => exact hinv
  | callClose => exact close_ownsLive s p hinv

theorem openOnlyWhenClosed_cons (s : AudioDecoderMp3) (p : Process) (op : Op) (ops : List Op) :
    openOnlyWhenClosed s p (op :: ops)
      = (openOnlyWhenClosed s p [op] && openOnlyWhenClosed (step s p op).1 (step s p op).2 ops) := by
  cases op <;> simp [openOnlyWhenClosed]

theorem run_ownsLive (ops : List Op) (s : AudioDecoderMp3) (p : Process) (hinv : ownsLive s p)
    (hdisc : openOnlyWhenClosed s p ops = true) :
    ownsLive (run s p ops).1 (run s p ops).2 := by
  induction ops generalizing s p with
  | nil => exact hinv
  | cons op ops ih =>
    rw [openOnlyWhenClosed_cons, Bool.and_eq_true] at hdisc
    exact ih _ _ (step_ownsLive s p op hinv hdisc.1) hdisc.2

theorem openOnlyWhenClosed_take (ops : List Op) (n : Nat) (s : AudioDecoderMp3) (p : Process)
    (hdisc : openOnlyWhenClosed s p ops = true) :
    openOnlyWhenClosed s p (ops.take n) = true := by
  induction ops generalizing s p n with
  | nil => simp [openOnlyWhenClosed]
  | cons op ops ih =>
    cases n with
    | zero => simp [openOnlyWhenClosed]
    | succ n =>
      rw [openOnlyWhenClosed_cons, Bool.and_eq_true] at hdisc
      rw [List.take_succ_cons, openOnlyWhenClosed_cons, Bool.and_eq_true]
      exact ⟨hdisc.1, ih n _ _ hdisc.2⟩

/-! ## `open`: failure leaves no handle (C1) -/

/-- C1, as stated, fails: a session that an earlier `open` has opened and on
which a second `open` fails (the file stream does not open the path) has a
null handle when that `open` returns false, and is still marked opened. -/
theorem open_failure_on_opened_session_stays_opened :
    trackOpened.ret = true ∧ trackOpened.session.isOpened = true ∧
    (trackOpened.session.open trackOpened.proc "missing.mp3"
        { trackOracle with fileOk := false }).ret = false ∧
    (trackOpened.session.open trackOpened.proc "missing.mp3"
        { trackOracle with fileOk := false }).session.mpg123handle = 0 ∧
    (trackOpened.session.open trackOpened.proc "missing.mp3"
        { trackOracle with fileOk := false }).session.isOpened = true := by
  decide

/-- C1, amended: when `open` returns false, the session's library handle is
null and `isOpened` has the value it had before the call; so a session that
was not opened before the call is not opened after it. -/
theorem open_false_null_handle_and_isOpened_kept (s : AudioDecoderMp3) (p : Process)
    (fullPath : String) (o : OpenOracle) (hret : (s.open p fullPath o).ret = false) :
    (s.open p fullPath o).session.mpg123handle = 0 ∧
    (s.open p fullPath o).session.isOpened = s.isOpened ∧
    (s.isOpened = false → (s.open p fullPath o).session.isOpened = false) := by
  have key : (s.open p fullPath o).session.mpg123handle = 0 ∧
      (s.open p fullPath o).session.isOpened = s.isOpened := by
    revert hret
    unfold AudioDecoderMp3.open
    dsimp only
    split_ifs <;> simp_all [openFail_handle, openFail_isOpened, openFinish]
  exact ⟨key.1, key.2, fun h => by rw [key.2, h]⟩

/-- Witness of C1 amended: a newly constructed session on which `open` fails
for a path the file stream does not open. -/
theorem open_false_null_handle_and_isOpened_kept_witness :
    ((construct freshProcess MPG123_OK).session.open (construct freshProcess MPG123_OK).proc
        "missing.mp3" { trackOracle with fileOk := false }).ret = false ∧
    ((construct freshProcess MPG123_OK).session.open (construct freshProcess MPG123_OK).proc
        "missing.mp3" { trackOracle with fileOk := false }).session.mpg123handle = 0 ∧
    ((construct freshProcess MPG123_OK).session.open (construct freshProcess MPG123_OK).proc
        "missing.mp3" { trackOracle with fileOk := false }).session.isOpened = false :=
  ⟨by decide,
   (open_false_null_handle_and_isOpened_kept (construct freshProcess MPG123_OK).session
      (construct freshProcess MPG123_OK).proc "missing.mp3"
      { trackOracle with fileOk := false } (by decide)).1,
   (open_false_null_handle_and_isOpened_kept (construct freshProcess MPG123_OK).session
      (construct freshProcess MPG123_OK).proc "missing.mp3"
      { trackOracle with fileOk := false } (by decide)).2.2 (by decide)⟩

/-! ## `open`: when it succeeds (C2) -/

/-- C2: `open` returns true exactly when `mpg123_new` returns a non-null
handle, the file stream opens the path, `mpg123_open_handle` and
`mpg123_getformat` return `MPG123_OK`, and the encoding is
`MPG123_ENC_SIGNED_16` or `MPG123_ENC_FLOAT_32`; otherwise it returns
false. -/
theorem open_true_iff_all_steps_succeed (s : AudioDecoderMp3) (p : Process)
    (fullPath : String) (o : OpenOracle) :
    ((s.open p fullPath o).ret = true ↔
      (o.newOk = true ∧ o.fileOk = true ∧ o.openRc = MPG123_OK ∧ o.formatRc = MPG123_OK ∧
        (o.encoding = MPG123_ENC_SIGNED_16 ∨ o.encoding = MPG123_ENC_FLOAT_32))) ∧
    ((s.open p fullPath o).ret = false ↔
      ¬ (o.newOk = true ∧ o.fileOk = true ∧ o.openRc = MPG123_OK ∧ o.formatRc = MPG123_OK ∧
        (o.encoding = MPG123_ENC_SIGNED_16 ∨ o.encoding = MPG123_ENC_FLOAT_32))) := by
  refine ⟨open_ret_iff s p fullPath o, ?_⟩
  rw [← open_ret_iff s p fullPath o]
  simp

/-! ## `open` and the initialization flag (C3) -/

/-- C4, as stated, fails: when the library reports the stream length as
`MPG123_ERR` (-1), `open` returns true and the session's `totalFrames` is
4294967295, not the reported value. -/
theorem open_totalFrames_of_unknown_length :
    ((construct freshProcess MPG123_OK).session.open (construct freshProcess MPG123_OK).proc
        "track.mp3" { trackOracle with length := MPG123_ERR }).ret = true ∧
    ((construct freshProcess MPG123_OK).session.open (construct freshProcess MPG123_OK).proc
        "track.mp3" { trackOracle with length := MPG123_ERR }).session.totalFrames
      = 4294967295 ∧
    (((construct freshProcess MPG123_OK).session.open (construct freshProcess MPG123_OK).proc
        "track.mp3" { trackOracle with length := MPG123_ERR }).session.totalFrames : Int)
      ≠ ({ trackOracle with length := MPG123_ERR } : OpenOracle).length := by
  decide

/-- C4, amended: whenever `open` returns true the session is marked opened
and records the reported rate, channel count and length converted to
`uint32_t` (reduced modulo 2^32), with `sourceFormat = PCM_16` and
`bytesPerFrame = 2 * channelCount` modulo 2^32 for signed 16-bit, and
`sourceFormat = PCM_FLT32` and `bytesPerFrame = 4 * channelCount` modulo 2^32
for 32-bit float.  The recorded values are the reported ones themselves
whenever those lie in the range of `uint32_t`, and `bytesPerFrame` is the
exact product whenever `channelCount` is below 2^31 (16-bit) or 2^30
(float). -/
theorem open_true_records_format (s : AudioDecoderMp3) (p : Process) (fullPath : String)
    (o : OpenOracle) (hret : (s.open p fullPath o).ret = true) :
    (s.open p fullPath o).session.isOpened = true ∧
    ((s.open p fullPath o).session.sampleRate : Int) = o.rate % 4294967296 ∧
    ((s.open p fullPath o).session.channelCount : Int) = o.channel % 4294967296 ∧
    ((s.open p fullPath o).session.totalFrames : Int) = o.length % 4294967296 ∧
    (o.encoding = MPG123_ENC_SIGNED_16 →
      (s.open p fullPath o).session.sourceFormat = AUDIO_SOURCE_FORMAT.PCM_16 ∧
      (s.open p fullPath o).session.bytesPerFrame =
        (2 * (s.open p fullPath o).session.channelCount) % 4294967296) ∧
    (o.encoding = MPG123_ENC_FLOAT_32 →
      (s.open p fullPath o).session.sourceFormat = AUDIO_SOURCE_FORMAT.PCM_FLT32 ∧
      (s.open p fullPath o).session.bytesPerFrame =
        (4 * (s.open p fullPath o).session.channelCount) % 4294967296) ∧
    (0 ≤ o.rate → o.rate < 4294967296 →
      ((s.open p fullPath o).session.sampleRate : Int) = o.rate) ∧
    (0 ≤ o.channel → o.channel < 4294967296 →
      ((s.open p fullPath o).session.channelCount : Int) = o.channel) ∧
    (0 ≤ o.length → o.length < 4294967296 →
      ((s.open p fullPath o).session.totalFrames : Int) = o.length) ∧
    (o.encoding = MPG123_ENC_SIGNED_16 →
      (s.open p fullPath o).session.channelCount < 2147483648 →
      (s.open p fullPath o).session.bytesPerFrame =
        2 * (s.open p fullPath o).session.channelCount) ∧
    (o.encoding = MPG123_ENC_FLOAT_32 →
      (s.open p fullPath o).session.channelCount < 1073741824 →
      (s.open p fullPath o).session.bytesPerFrame =
        4 * (s.open p fullPath o).session.channelCount) := by
  have hs := open_session_of_ret s p fullPath o hret
  obtain ⟨h1, h2, h3, h4, h5, h6⟩ := hs
  have hr := toUInt32_cast o.rate
  have hc := toUInt32_cast o.channel
  have hl := toUInt32_cast o.length
  refine ⟨h1, ?_, ?_, ?_, ?_, ?_, ?_, ?_, ?_, ?_, ?_⟩
  · rw [h2, hr]
  · rw [h3, hc]
  · rw [h4, hl]
  · intro he
    exact ⟨(h5 he).1, by rw [(h5 he).2, h3]; rfl⟩
  · intro he
    exact ⟨(h6 he).1, by rw [(h6 he).2, h3]; rfl⟩
  · intro h0 hlt
    rw [h2, hr]
    exact Int.emod_eq_of_lt h0 hlt
  · intro h0 hlt
    rw [h3, hc]
    exact Int.emod_eq_of_lt h0 hlt
  · intro h0 hlt
    rw [h4, hl]
    exact Int.emod_eq_of_lt h0 hlt
  · intro he hlt
    rw [(h5 he).2]
    rw [h3] at hlt ⊢
    unfold mulUInt32
    exact Nat.mod_eq_of_lt (by omega)
  · intro he hlt
    rw [(h6 he).2]
    rw [h3] at hlt ⊢
    unfold mulUInt32
    exact Nat.mod_eq_of_lt (by omega)

/-- Witness of C4 amended, the spec's scenario: 44100 Hz, stereo, signed
16-bit gives sampleRate 44100, channelCount 2, PCM_16 and bytesPerFrame 4. -/
theorem open_true_records_format_witness :
    trackOpened.ret = true ∧
    trackOpened.session.isOpened = true ∧
    (trackOpened.session.sampleRate : Int) = 44100 ∧
    (trackOpened.session.channelCount : Int) = 2 ∧
    (trackOpened.session.totalFrames : Int) = 1000 ∧
    trackOpened.session.sourceFormat = AUDIO_SOURCE_FORMAT.PCM_16 ∧
    trackOpened.session.bytesPerFrame = 2 * trackOpened.session.channelCount ∧
    trackOpened.session.bytesPerFrame = 4 := by
  have h := open_true_records_format (construct freshProcess MPG123_OK).session
    (construct freshProcess MPG123_OK).proc "track.mp3" trackOracle (by decide)
  obtain ⟨h1, -, -, -, h5, -, h7, h8, h9, h10, -⟩ := h
  refine ⟨by decide, h1, h7 (by decide) (by decide), h8 (by decide) (by decide),
    h9 (by decide) (by decide), (h5 rfl).1, h10 rfl (by decide), by decide⟩

/-! ## `read`: the returned frame count (C5) -/

/-- C5, as stated, fails: on the opened session of the scenario
(bytesPerFrame 4), `read` for 536870912 frames asks the library for
18446744071562067968 bytes; when the library reports success and 17179869184
bytes, that is 4294967296 whole frames, and `read` returns 0. -/
theorem read_frame_count_truncated :
    trackOpened.session.isOpened = true ∧ trackOpened.session.bytesPerFrame = 4 ∧
    requestedSize trackOpened.session 536870912 = 18446744071562067968 ∧
    (trackOpened.session.read trackOpened.proc 536870912
        { err := MPG123_OK, bytesRead := 17179869184 }).ret = some 0 ∧
    17179869184 / trackOpened.session.bytesPerFrame = 4294967296 := by
  decide

/-- C5, amended: for every session with `bytesPerFrame > 0` and every
`framesToRead`, `read` returns 0 when `mpg123_read` returns `MPG123_ERR`, and
otherwise returns the whole-frame count `bytesRead / bytesPerFrame` converted
to `uint32_t` (reduced modulo 2^32), which is that count itself whenever it
is below 2^32. -/
theorem read_returns_whole_frames (s : AudioDecoderMp3) (p : Process) (framesToRead : Nat)
    (o : ReadOracle) (hbpf : 0 < s.bytesPerFrame) :
    (o.err = MPG123_ERR → (s.read p framesToRead o).ret = some 0) ∧
    (o.err ≠ MPG123_ERR →
      (s.read p framesToRead o).ret = some ((o.bytesRead / s.bytesPerFrame) % 4294967296)) ∧
    (o.err ≠ MPG123_ERR → o.bytesRead / s.bytesPerFrame < 4294967296 →
      (s.read p framesToRead o).ret = some (o.bytesRead / s.bytesPerFrame)) := by
  have hne : s.bytesPerFrame ≠ 0 := Nat.pos_iff_ne_zero.mp hbpf
  refine ⟨?_, ?_, ?_⟩
  · intro he
    simp [AudioDecoderMp3.read, he]
  · intro he
    simp [AudioDecoderMp3.read, he, hne]
  · intro he hlt
    simp [AudioDecoderMp3.read, he, hne, Nat.mod_eq_of_lt hlt]

/-- Witness of C5 amended: on the scenario's session a `read` of 1024 frames
for which the library reports 4096 bytes returns 1024. -/
theorem read_returns_whole_frames_witness :
    0 < trackOpened.session.bytesPerFrame ∧
    (trackOpened.session.read trackOpened.proc 1024
        { err := MPG123_OK, bytesRead := 4096 }).ret = some 1024 :=
  ⟨by decide,
   (read_returns_whole_frames trackOpened.session trackOpened.proc 1024
      { err := MPG123_OK, bytesRead := 4096 } (by decide)).2.2 (by decide) (by decide)⟩

/-! ## `read`: the requested size (C6) -/

/-- C6, as stated, fails: on the opened session of the scenario
(bytesPerFrame 4), `read` for 1073741824 frames asks the library for 0 bytes,
not for 4294967296; and `read` for 536870912 frames asks for
18446744071562067968 bytes, so that a library producing 2147483652 bytes,
fewer than it was asked for, makes `read` return 536870913 frames, more than
`framesToRead`. -/
theorem read_request_wraps :
    trackOpened.session.isOpened = true ∧ trackOpened.session.bytesPerFrame = 4 ∧
    (trackOpened.session.read trackOpened.proc 1073741824
        { err := MPG123_OK, bytesRead := 0 }).calls = [Call.mpg123_read 1 0] ∧
    requestedSize trackOpened.session 1073741824 ≠ 1073741824 * trackOpened.session.bytesPerFrame ∧
    (trackOpened.session.read trackOpened.proc 536870912
        { err := MPG123_OK, bytesRead := 2147483652 }).calls
      = [Call.mpg123_read 1 18446744071562067968] ∧
    2147483652 ≤ requestedSize trackOpened.session 536870912 ∧
    (trackOpened.session.read trackOpened.proc 536870912
        { err := MPG123_OK, bytesRead := 2147483652 }).ret = some 536870913 := by
  decide

/-- C6, amended: for every session and every `framesToRead` with
`framesToRead * bytesPerFrame < 2^31`, `read` asks the library for exactly
`framesToRead * bytesPerFrame` bytes, and, when `bytesPerFrame > 0` and the
library produces no more bytes than it was asked for, returns at most
`framesToRead` frames. -/
theorem read_request_exact_below_2_31 (s : AudioDecoderMp3) (p : Process) (framesToRead : Nat)
    (o : ReadOracle) (hprod : framesToRead * s.bytesPerFrame < 2147483648) :
    requestedSize s framesToRead = framesToRead * s.bytesPerFrame ∧
    (s.read p framesToRead o).calls
      = [Call.mpg123_read s.mpg123handle (framesToRead * s.bytesPerFrame)] ∧
    (0 < s.bytesPerFrame → o.bytesRead ≤ requestedSize s framesToRead →
      ∃ n, (s.read p framesToRead o).ret = some n ∧ n ≤ framesToRead) := by
  have hreq := requestedSize_of_lt s framesToRead hprod
  refine ⟨hreq, ?_, ?_⟩
  · unfold AudioDecoderMp3.read
    dsimp only
    split_ifs <;> simp [hreq]
  · intro hbpf hle
    rw [hreq] at hle
    have hne : s.bytesPerFrame ≠ 0 := Nat.pos_iff_ne_zero.mp hbpf
    have hq : o.bytesRead / s.bytesPerFrame ≤ framesToRead := by
      calc o.bytesRead / s.bytesPerFrame
          ≤ (framesToRead * s.bytesPerFrame) / s.bytesPerFrame := Nat.div_le_div_right hle
        _ = framesToRead := Nat.mul_div_cancel framesToRead hbpf
    by_cases he : o.err = MPG123_ERR
    · exact ⟨0, by simp [AudioDecoderMp3.read, he], Nat.zero_le _⟩
    · exact ⟨(o.bytesRead / s.bytesPerFrame) % 4294967296,
        by simp [AudioDecoderMp3.read, he, hne],
        le_trans (Nat.mod_le _ _) hq⟩

/-- Witness of C6 amended, the spec's scenario: a `read` of 1024 frames asks
for 1024 * 4 bytes. -/
theorem read_request_exact_below_2_31_witness :
    1024 * trackOpened.session.bytesPerFrame < 2147483648 ∧
    requestedSize trackOpened.session 1024 = 1024 * trackOpened.session.bytesPerFrame ∧
    1024 * trackOpened.session.bytesPerFrame = 4096 :=
  ⟨by decide,
   (read_request_exact_below_2_31 trackOpened.session trackOpened.proc 1024
      { err := MPG123_OK, bytesRead := 4096 } (by decide)).1,
   by decide⟩

/-! ## `seek` (C7) -/

/-- C8: `close` is idempotent.  After a `close`, a second `close` leaves the
session and the process state (the live handles among it) as the first one
left them, and makes no call into the library. -/
theorem close_idempotent (s : AudioDecoderMp3) (p : Process) :
    (AudioDecoderMp3.close (s.close p).session (s.close p).proc).session = (s.close p).session ∧
    (AudioDecoderMp3.close (s.close p).session (s.close p).proc).proc = (s.close p).proc ∧
    (AudioDecoderMp3.close (s.close p).session (s.close p).proc).calls = [] ∧
    (s.close p).session.isOpened = false := by
  have hclosed : (s.close p).session.isOpened = false := by
    unfold AudioDecoderMp3.close
    split_ifs with h1 h2
    · rfl
    · rfl
    · simpa using h1
  have hnoop : ∀ (s' : AudioDecoderMp3) (p' : Process), s'.isOpened = false →
      (s'.close p').session = s' ∧ (s'.close p').proc = p' ∧ (s'.close p').calls = [] := by
    intro s' p' h
    unfold AudioDecoderMp3.close
    simp [h]
  obtain ⟨h1, h2, h3⟩ := hnoop (s.close p).session (s.close p).proc hclosed
  exact ⟨h1, h2, h3, hclosed⟩

/-! ## Library lifecycle (C9) -/

/-- C9: in every sequence of `lazyInit` and `destroy` calls that starts with
the flag unset, successful `mpg123_init` and `mpg123_exit` strictly
alternate, beginning with an initialization.  `lazyInit` with the flag set
returns true, makes no call and changes nothing; with the flag unset it
calls `mpg123_init` once, returns whether that succeeded and sets the flag
only then.  `destroy` with the flag set calls `mpg123_exit` and clears the
flag, with the flag unset it does nothing; a `lazyInit` after it calls
`mpg123_init` again. -/
theorem lifecycle_init_exit_alternate (live : List Nat) (fresh : Nat) (ops : List ProcOp)
    (p : Process) (rc : Int) :
    alternates false (runProc { mp3Inited := false, live := live, fresh := fresh } ops).2 = true ∧
    lazyInit { p with mp3Inited := true } rc = (true, { p with mp3Inited := true }, []) ∧
    (lazyInit { p with mp3Inited := false } rc).2.2 = [Call.mpg123_init rc] ∧
    (lazyInit { p with mp3Inited := false } rc).1 = decide (rc = MPG123_OK) ∧
    (lazyInit { p with mp3Inited := false } rc).2.1
      = { p with mp3Inited := decide (rc = MPG123_OK) } ∧
    destroy { p with mp3Inited := true } = ({ p with mp3Inited := false }, [Call.mpg123_exit]) ∧
    destroy { p with mp3Inited := false } = ({ p with mp3Inited := false }, []) ∧
    lazyInit (destroy { p with mp3Inited := true }).1 MPG123_OK
      = (true, { p with mp3Inited := true }, [Call.mpg123_init MPG123_OK]) := by
  refine ⟨runProc_alternates { mp3Inited := false, live := live, fresh := fresh } ops,
    ?_, ?_, ?_, ?_, ?_, ?_, ?_⟩
  · simp [lazyInit]
  · unfold lazyInit
    by_cases h : rc = MPG123_OK <;> simp [h]
  · unfold lazyInit
    by_cases h : rc = MPG123_OK <;> simp [h]
  · unfold lazyInit
    by_cases h : rc = MPG123_OK <;> simp [h]
  · simp [destroy]
  · simp [destroy]
  · simp [destroy, lazyInit]

/-! ## Handle ownership (C10) -/

/-- C10, as stated, fails: a second `open` on an opened session allocates a
second handle while the first is live, and the `close` that follows deletes
the second only; the first handle stays live after `close` has returned. -/
theorem reopen_leaks_first_handle :
    (run (construct freshProcess MPG123_OK).session (construct freshProcess MPG123_OK).proc
        (reopenOps.take 2)).2.live = [1, 2] ∧
    (run (construct freshProcess MPG123_OK).session (construct freshProcess MPG123_OK).proc
        reopenOps).1.isOpened = false ∧
    (run (construct freshProcess MPG123_OK).session (construct freshProcess MPG123_OK).proc
        reopenOps).2.live = [1] := by
  decide

/-- C10, amended: for every sequence of open/read/seek/tell/close calls on a
newly constructed session in which `open` is only called while the session
is not opened, the session owns at most one live handle after every prefix
of the sequence, the live handles being the session's own handle when it has
one and none otherwise; and once a `close` after the sequence (the
destructor's, say) returns, no handle is live. -/
theorem disciplined_session_leaks_no_handle (inited : Bool) (fresh : Nat) (rc : Int)
    (ops : List Op)
    (hdisc : openOnlyWhenClosed
      (construct { mp3Inited := inited, live := [], fresh := fresh } rc).session
      (construct { mp3Inited := inited, live := [], fresh := fresh } rc).proc ops = true) :
    (AudioDecoderMp3.close
      (run (construct { mp3Inited := inited, live := [], fresh := fresh } rc).session
        (construct { mp3Inited := inited, live := [], fresh := fresh } rc).proc ops).1
      (run (construct { mp3Inited := inited, live := [], fresh := fresh } rc).session
        (construct { mp3Inited := inited, live := [], fresh := fresh } rc).proc ops).2).proc.live
      = [] ∧
    (∀ n : Nat,
      (run (construct { mp3Inited := inited, live := [], fresh := fresh } rc).session
        (construct { mp3Inited := inited, live := [], fresh := fresh } rc).proc
        (ops.take n)).2.live.length ≤ 1 ∧
      ownsLive
        (run (construct { mp3Inited := inited, live := [], fresh := fresh } rc).session
          (construct { mp3Inited := inited, live := [], fresh := fresh } rc).proc (ops.take n)).1
        (run (construct { mp3Inited := inited, live := [], fresh := fresh } rc).session
          (construct { mp3Inited := inited, live := [], fresh := fresh } rc).proc
          (ops.take n)).2) := by
  have h0 := construct_ownsLive inited fresh rc
  refine ⟨close_live_of_ownsLive _ _ (run_ownsLive ops _ _ h0 hdisc), ?_⟩
  intro n
  have hn := run_ownsLive (ops.take n) _ _ h0 (openOnlyWhenClosed_take ops n _ _ hdisc)
  exact ⟨ownsLive_length _ _ hn, hn⟩

/-- Witness of C10 amended: open, read, seek, tell, close, a failing open and
an open again on a newly constructed session; a final `close` leaves no live
handle. -/
theorem disciplined_session_leaks_no_handle_witness :
    openOnlyWhenClosed (construct freshProcess MPG123_OK).session
      (construct freshProcess MPG123_OK).proc disciplinedOps = true ∧
    (AudioDecoderMp3.close
      (run (construct freshProcess MPG123_OK).session (construct freshProcess MPG123_OK).proc
        disciplinedOps).1
      (run (construct freshProcess MPG123_OK).session (construct freshProcess MPG123_OK).proc
        disciplinedOps).2).proc.live = [] :=
  ⟨by decide, (disciplined_session_leaks_no_handle false 0 MPG123_OK disciplinedOps (by decide)).1⟩

end cocos2d
